import Mathlib

/-!
Verification development for the `comfort_advisor` Home Assistant integration.

The authoritative code is `custom_components/comfort_advisor/comfort.py`
(class `ComfortCalculator`) together with the formula library
`custom_components/comfort_advisor/formulas.py`.

Modelling conventions:
* Python floats are modelled exactly: by `ℚ` for the polynomial formulas and
  the calculator state machine, and by `ℝ` for the logarithm based dew-point
  formulas.
* Timestamps (`datetime`) are modelled as rationals measured in hours, so the
  24-hour forecast window `start_time + timedelta(hours=24)` becomes `now + 24`.
* `ComfortCalculator` calls `calc_dew_point`, `calc_simmer_index` and
  `calc_moist_air_enthalpy` (each specialised to the configured temperature
  unit).  The state machine is parameterised by a `Formulas` record holding
  these three numeric functions; every state-machine theorem below is proved
  for an arbitrary record, hence in particular for the real formulas.
* Python's `round(x, 2)` uses round-half-to-even; `round2` below implements
  exactly that on `ℚ` (and `round2R` on `ℝ`).
-/

/-! ### Temperature units and conversion (`homeassistant` `TemperatureConverter`) -/

/-- The temperature units relevant to the integration. -/
inductive TempUnit where
  | celsius
  | fahrenheit
  | kelvin
deriving DecidableEq, Repr

/-- Convert a value in unit `u` to Celsius (exact rational arithmetic). -/
def toCelsius (x : ℚ) (u : TempUnit) : ℚ :=
  match u with
  | .celsius => x
  | .fahrenheit => (x - 32) / 1.8
  | .kelvin => x - 273.15

/-- Convert a Celsius value to unit `u`. -/
def fromCelsius (x : ℚ) (u : TempUnit) : ℚ :=
  match u with
  | .celsius => x
  | .fahrenheit => x * 1.8 + 32
  | .kelvin => x + 273.15

/-- Model of `TemperatureConverter.convert(x, u, v)`. -/
def convertTemp (x : ℚ) (u v : TempUnit) : ℚ :=
  fromCelsius (toCelsius x u) v

/-! ### Rounding: Python's `round(x, 2)` (round half to even) -/

/-- Round a rational to the nearest integer, ties to even (Python's `round`). -/
def roundHalfEven (q : ℚ) : ℤ :=
  if q - ⌊q⌋ < 1/2 then ⌊q⌋
  else if 1/2 < q - ⌊q⌋ then ⌊q⌋ + 1
  else if 2 ∣ ⌊q⌋ then ⌊q⌋ else ⌊q⌋ + 1

/-- Python's `round(q, 2)` on exact rationals. -/
def round2 (q : ℚ) : ℚ :=
  (roundHalfEven (100 * q) : ℚ) / 100

/-! ### `formulas.summer_simmer_index` and `formulas.calc_simmer_index` -/

/-- `formulas.summer_simmer_index(tf, rh)`: dry-bulb temperature in °F and
relative humidity in percent. -/
def summer_simmer_index (tf rh : ℚ) : ℚ :=
  1.98 * (tf - (0.55 - 0.0055 * rh) * (tf - 58)) - 56.83

/-- `formulas.calc_simmer_index(temp, rh, temp_unit)`: convert to Fahrenheit,
apply `summer_simmer_index`, convert back.  Note: the source returns
`TC.convert(ssi, FAHRENHEIT, temp_unit)` with no rounding. -/
def calc_simmer_index (temp rh : ℚ) (u : TempUnit) : ℚ :=
  convertTemp (summer_simmer_index (convertTemp temp u .fahrenheit) rh) .fahrenheit u

/-- Modelled from the spec (claim C8): the same computation followed by the
2-decimal rounding the spec asserts.  Only used to compare against the source
function `calc_simmer_index`. -/
def simmer_index_specC8 (temp rh : ℚ) (u : TempUnit) : ℚ :=
  round2 (convertTemp
    (1.98 * (convertTemp temp u .fahrenheit
      - (0.55 - 0.0055 * rh) * (convertTemp temp u .fahrenheit - 58)) - 56.83)
    .fahrenheit u)

/-! ### The `ComfortCalculator` state machine (`comfort.py`) -/

/-- One entry of the provider forecast list (`homeassistant` `Forecast`
TypedDict): the fields read by `make_comfort_forecast`.  `datetime` is the
parsed `ATTR_FORECAST_TIME`; the numeric fields may be absent. -/
structure Forecast where
  datetime : ℚ
  temperature : Option ℚ
  humidity : Option ℚ
  dew_point : Option ℚ
deriving DecidableEq, Repr

/-- One entry of the derived forecast (`comfort.ComfortForecast`). -/
structure ComfortForecast where
  datetime : ℚ
  temperature : ℚ
  dew_point : ℚ
  ssi : ℚ
  enthalpy : ℚ
  comfortable : Bool
deriving DecidableEq, Repr

/-- A value stored in the `ComfortCalculator._input` dict: either a sensor
scalar or the forecast list. -/
inductive InputValue where
  | scalar (x : ℚ)
  | flist (l : List Forecast)
deriving DecidableEq, Repr

/-- The keys of `ComfortCalculator._input` (the `Input` string enum). -/
inductive Input where
  | forecast
  | indoor_temperature
  | indoor_humidity
  | outdoor_temperature
  | outdoor_humidity
deriving DecidableEq, Repr

/-- `ComfortCalculator._calculated` (keys of the `Calculated` string enum);
every value starts as `None`.  `can_open_windows` stores the string
`["off", "on"][comfortable_now]`. -/
structure CalculatedState where
  average_temperature : Option ℚ := none
  enthalpy : Option ℚ := none
  simmer_index : Option ℚ := none
  can_open_windows : Option String := none
  open_windows_at : Option ℚ := none
  close_windows_at : Option ℚ := none
  low_simmer_index : Option ℚ := none
  high_simmer_index : Option ℚ := none
  low_enthalpy : Option ℚ := none
  high_enthalpy : Option ℚ := none
deriving DecidableEq, Repr

/-- The mutable state of a `ComfortCalculator`: the `_have_changes` dirty flag,
the five `_input` slots (all initially `None`) and `_calculated`. -/
structure CalculatorState where
  have_changes : Bool := false
  forecast : Option InputValue := none
  indoor_temperature : Option InputValue := none
  indoor_humidity : Option InputValue := none
  outdoor_temperature : Option InputValue := none
  outdoor_humidity : Option InputValue := none
  calculated : CalculatedState := {}
deriving DecidableEq, Repr

/-- The immutable threshold configuration held by a `ComfortCalculator`
(after the constructor's unit conversion). -/
structure Config where
  humidity_max : ℚ
  pollen_max : ℤ
  dew_point_max : ℚ
  simmer_index_min : ℚ
  simmer_index_max : ℚ
deriving DecidableEq, Repr

/-- The numeric formula functions used by the state machine: `calc_dew_point`,
`calc_simmer_index` and `calc_moist_air_enthalpy` (at standard pressure), each
specialised to the configured temperature unit.  The state-machine theorems
hold for every record, hence for the real formula library. -/
structure Formulas where
  dewPoint : ℚ → ℚ → ℚ
  simmerIndex : ℚ → ℚ → ℚ
  enthalpy : ℚ → ℚ → ℚ

/-- `self._input[key]`. -/
def getInput (s : CalculatorState) (k : Input) : Option InputValue :=
  match k with
  | .forecast => s.forecast
  | .indoor_temperature => s.indoor_temperature
  | .indoor_humidity => s.indoor_humidity
  | .outdoor_temperature => s.outdoor_temperature
  | .outdoor_humidity => s.outdoor_humidity

/-- `self._input[key] = value`. -/
def setInput (s : CalculatorState) (k : Input) (v : InputValue) : CalculatorState :=
  match k with
  | .forecast => { s with forecast := some v }
  | .indoor_temperature => { s with indoor_temperature := some v }
  | .indoor_humidity => { s with indoor_humidity := some v }
  | .outdoor_temperature => { s with outdoor_temperature := some v }
  | .outdoor_humidity => { s with outdoor_humidity := some v }

/-- `ComfortCalculator.update_input(key, value)`: store the value and set the
dirty flag exactly when `value is not None and self._input[key] != value`.
The Python method body contains no `return` statement. -/
def update_input (s : CalculatorState) (k : Input) (v : Option InputValue) :
    CalculatorState :=
  match v with
  | none => s
  | some x =>
    if getInput s k ≠ some x then
      { setInput s k x with have_changes := true }
    else s

/-- The value of a call to `ComfortCalculator.update_input`: the method is
annotated `-> None` and has no `return` statement, so every call evaluates to
Python `None` (modelled as `Option.none`, with a would-be boolean result as
`some b`). -/
def update_input_ret (_s : CalculatorState) (_k : Input) (_v : Option InputValue) :
    Option Bool :=
  none

/-- `any(value is None for value in self._input.values())`. -/
def anyInputNone (s : CalculatorState) : Bool :=
  s.forecast.isNone || s.indoor_temperature.isNone || s.indoor_humidity.isNone
    || s.outdoor_temperature.isNone || s.outdoor_humidity.isNone

/-- Read a scalar input slot.  At the points where `refresh_state` reads the
scalar slots every slot is known to be non-`None`, and the Python code simply
assumes (`float` annotation) that the stored value is a scalar; the default
`0` is never reached in the claims below, which hypothesise well-typed slots. -/
def getScalar (v : Option InputValue) : ℚ :=
  match v with
  | some (.scalar x) => x
  | _ => 0

/-- Read the forecast slot as a list (the Python code iterates the stored
value, assuming `list[Forecast]`). -/
def getForecastList (v : Option InputValue) : List Forecast :=
  match v with
  | some (.flist l) => l
  | _ => []

/-- `ComfortCalculator.is_comfortable(humidity, dew_point, simmer_index,
pollen)`, in the source's comparison order. -/
def is_comfortable (cfg : Config) (humidity dew_point simmer_index : ℚ)
    (pollen : ℤ) : Bool :=
  decide (cfg.simmer_index_min ≤ simmer_index)
    && decide (simmer_index ≤ cfg.simmer_index_max)
    && decide (dew_point ≤ cfg.dew_point_max)
    && decide (humidity ≤ cfg.humidity_max)
    && decide (pollen ≤ cfg.pollen_max)

/-- `entry.get(ATTR_FORECAST_DEW_POINT) or calc_dew_point(temp, humidity, unit)`:
Python's `or` falls through both on a missing key and on a stored `0.0`
(falsy float). -/
def dewPointOrCalc (F : Formulas) (t h : ℚ) (od : Option ℚ) : ℚ :=
  match od with
  | some d => if d = 0 then F.dewPoint t h else d
  | none => F.dewPoint t h

/-- `ComfortCalculator.make_comfort_forecast(forecast)`: keep entries whose
time lies in `[now, now + 24h]` (skipping earlier entries, breaking at the
first later one), and on an entry missing its temperature or humidity stop and
return the entries accumulated so far (`return new_forecast`). -/
def make_comfort_forecast (F : Formulas) (cfg : Config) (now : ℚ) :
    List Forecast → List ComfortForecast
  | [] => []
  | e :: rest =>
    if e.datetime < now then make_comfort_forecast F cfg now rest
    else if now + 24 < e.datetime then []
    else
      match e.temperature, e.humidity with
      | some t, some h =>
        { datetime := e.datetime
          temperature := t
          dew_point := dewPointOrCalc F t h e.dew_point
          ssi := F.simmerIndex t h
          enthalpy := F.enthalpy t h
          comfortable := is_comfortable cfg h (dewPointOrCalc F t h e.dew_point)
            (F.simmerIndex t h) 0 } :: make_comfort_forecast F cfg now rest
      | _, _ => []

/-- The transition scan of `refresh_state` (lines 177-188): `first_time` is
the head of `dropwhile(lambda x: x.comfortable == comfortable_now, forecast)`;
when that is non-empty, `second_time` is the head of
`dropwhile(lambda x: x.comfortable != comfortable_now, change)`. -/
def transitionScan (fc : List ComfortForecast) (comfortable_now : Bool) :
    Option ℚ × Option ℚ :=
  match fc.dropWhile (fun x => x.comfortable == comfortable_now) with
  | [] => (none, none)
  | b :: rest =>
    (some b.datetime,
      (((b :: rest).dropWhile (fun x => x.comfortable != comfortable_now)).head?).map
        (fun x => x.datetime))

/-- Lines 198-203: `OPEN_WINDOWS_AT = second if comfortable_now else first`
and `CLOSE_WINDOWS_AT = first if comfortable_now else second`. -/
def windowTimes (comfortable_now : Bool) (p : Option ℚ × Option ℚ) :
    Option ℚ × Option ℚ :=
  (if comfortable_now then p.2 else p.1, if comfortable_now then p.1 else p.2)

/-- Python's `min` over a non-empty list (the empty case is unreachable at the
call sites, which are guarded by `if not forecast: return False`). -/
def listMin : List ℚ → ℚ
  | [] => 0
  | x :: xs => xs.foldl min x

/-- Python's `max` over a non-empty list. -/
def listMax : List ℚ → ℚ
  | [] => 0
  | x :: xs => xs.foldl max x

/-- Lines 152-203 of `refresh_state`: the computation performed once all
inputs are present and the filtered forecast is non-empty.  Every
`_calculated` slot is overwritten. -/
def calculateOutputs (F : Formulas) (cfg : Config) (now : ℚ)
    (s : CalculatorState) : CalculatorState :=
  let fc := make_comfort_forecast F cfg now (getForecastList s.forecast)
  let out_temp := getScalar s.outdoor_temperature
  let out_humidity := getScalar s.outdoor_humidity
  let out_dewp := F.dewPoint out_temp out_humidity
  let out_ssi := F.simmerIndex out_temp out_humidity
  let out_enthalpy := F.enthalpy out_temp out_humidity
  let comfortable_now := is_comfortable cfg out_humidity out_dewp out_ssi 0
  let wt := windowTimes comfortable_now (transitionScan fc comfortable_now)
  { s with calculated :=
    { average_temperature := some ((fc.map (fun e => e.temperature)).sum / (fc.length : ℚ))
      enthalpy := some out_enthalpy
      simmer_index := some out_ssi
      can_open_windows := some (if comfortable_now then "on" else "off")
      open_windows_at := wt.1
      close_windows_at := wt.2
      low_simmer_index := some (listMin (fc.map (fun e => e.ssi)))
      high_simmer_index := some (listMax (fc.map (fun e => e.ssi)))
      low_enthalpy := some (listMin (fc.map (fun e => e.enthalpy)))
      high_enthalpy := some (listMax (fc.map (fun e => e.enthalpy))) } }

/-- `self._have_changes = False` (line 140 of `comfort.py`). -/
def clearFlag (s : CalculatorState) : CalculatorState :=
  { s with have_changes := false }

/-- `ComfortCalculator.refresh_state()`: return `False` at once if the dirty
flag is unset; otherwise clear the dirty flag, then return `False` if any
input is `None` or the filtered forecast is empty, and otherwise recompute all
outputs and return `True`. -/
def refresh_state (F : Formulas) (cfg : Config) (now : ℚ) (s : CalculatorState) :
    Bool × CalculatorState :=
  if ¬ s.have_changes then (false, s)
  else if anyInputNone (clearFlag s) then (false, clearFlag s)
  else if (make_comfort_forecast F cfg now (getForecastList (clearFlag s).forecast)).isEmpty then
    (false, clearFlag s)
  else (true, calculateOutputs F cfg now (clearFlag s))

/-! ### Sample data used by witnesses and counterexamples -/

/-- A sample formula record used to instantiate witnesses (the state-machine
theorems hold for every record). -/
def sampleFormulas : Formulas :=
  { dewPoint := fun t _ => t - 5
    simmerIndex := fun t _ => t
    enthalpy := fun t h => t + h }

/-- The threshold example from the specification. -/
def sampleConfig : Config :=
  { humidity_max := 60, pollen_max := 2, dew_point_max := 16
    simmer_index_min := 18, simmer_index_max := 30 }

/-- A calculator state with every input present and the dirty flag set. -/
def sampleState : CalculatorState :=
  { have_changes := true
    forecast := some (.flist [{ datetime := 1, temperature := some 20
                                humidity := some 50, dew_point := none }])
    indoor_temperature := some (.scalar 25)
    indoor_humidity := some (.scalar 50)
    outdoor_temperature := some (.scalar 20)
    outdoor_humidity := some (.scalar 55) }

/-! ### Real-number formulas: `formulas.dew_point_from_relative_humidity` -/

/-- Convert a real value in unit `u` to Celsius. -/
noncomputable def toCelsiusR (x : ℝ) (u : TempUnit) : ℝ :=
  match u with
  | .celsius => x
  | .fahrenheit => (x - 32) / 1.8
  | .kelvin => x - 273.15

/-- Convert a real Celsius value to unit `u`. -/
noncomputable def fromCelsiusR (x : ℝ) (u : TempUnit) : ℝ :=
  match u with
  | .celsius => x
  | .fahrenheit => x * 1.8 + 32
  | .kelvin => x + 273.15

/-- `TemperatureConverter.convert` over the reals. -/
noncomputable def convertTempR (x : ℝ) (u v : TempUnit) : ℝ :=
  fromCelsiusR (toCelsiusR x u) v

open Classical in
/-- Round a real to the nearest integer, ties to even (Python `round`). -/
noncomputable def roundHalfEvenR (x : ℝ) : ℤ :=
  if x - ⌊x⌋ < 1/2 then ⌊x⌋
  else if 1/2 < x - ⌊x⌋ then ⌊x⌋ + 1
  else if 2 ∣ ⌊x⌋ then ⌊x⌋ else ⌊x⌋ + 1

/-- Python's `round(x, 2)` over the reals. -/
noncomputable def round2R (x : ℝ) : ℝ :=
  (roundHalfEvenR (100 * x) : ℝ) / 100

/-- The local variable `A0` of `dew_point_from_relative_humidity`. -/
noncomputable def dp_A0 (t : ℝ) : ℝ := 373.15 / (273.15 + t)

/-- The local variable `SUM` of `dew_point_from_relative_humidity`
(`math.log(x, 10)` is `log x / log 10`, `10 ** y` is real exponentiation). -/
noncomputable def dp_SUM (t : ℝ) : ℝ :=
  -7.90298 * (dp_A0 t - 1)
    + 5.02808 * (Real.log (dp_A0 t) / Real.log 10)
    + -1.3816e-7 * ((10:ℝ) ^ (11.344 * (1 - 1 / dp_A0 t)) - 1)
    + 8.1328e-3 * ((10:ℝ) ^ (-3.49149 * (dp_A0 t - 1)) - 1)
    + Real.log 1013.246 / Real.log 10

/-- The local variable `vp` of `dew_point_from_relative_humidity`. -/
noncomputable def dp_vp (t rh : ℝ) : ℝ := (10:ℝ) ^ (dp_SUM t - 3) * rh

/-- `formulas.dew_point_from_relative_humidity(t, rh)`: a Goff-Gratch-style
saturation vapor pressure scaled by `rh`, inverted through
`t_d = 241.88·L/(17.558 − L)` with `L = ln(vp/0.61078)`. -/
noncomputable def dew_point_from_relative_humidity (t rh : ℝ) : ℝ :=
  (241.88 * Real.log (dp_vp t rh / 0.61078))
    / (17.558 - Real.log (dp_vp t rh / 0.61078))

/-- `formulas.calc_dew_point(temp, rh, temp_unit)`: convert to Celsius, apply
`dew_point_from_relative_humidity`, convert back, round to 2 decimals. -/
noncomputable def calc_dew_point (temp rh : ℝ) (u : TempUnit) : ℝ :=
  round2R (convertTempR
    (dew_point_from_relative_humidity (convertTempR temp u .celsius) rh) .celsius u)

/-- Modelled from the spec (claim C9): the Magnus-form exponent
`γ = ln(rh/100) + b·T/(c+T)` with `b = 17.67`, `c = 243.5`.  Only used to
compare against the source function `calc_dew_point`. -/
noncomputable def magnus_gamma (T rh : ℝ) : ℝ :=
  Real.log (rh / 100) + 17.67 * T / (243.5 + T)

/-- Modelled from the spec (claim C9): the claimed dew point — convert to
Celsius, compute `Td = c·γ/(b−γ)`, convert back, round to 2 decimals. -/
noncomputable def magnus_dew_point (temp rh : ℝ) (u : TempUnit) : ℝ :=
  round2R (convertTempR
    (243.5 * magnus_gamma (convertTempR temp u .celsius) rh
      / (17.67 - magnus_gamma (convertTempR temp u .celsius) rh)) .celsius u)

/-! ### State-machine helper lemmas -/

lemma getInput_set_self (s : CalculatorState) (k : Input) (x : InputValue) :
    getInput { setInput s k x with have_changes := true } k = some x := by
  cases k <;> rfl

lemma update_input_none (s : CalculatorState) (k : Input) :
    update_input s k none = s := rfl

lemma update_input_stored (s : CalculatorState) (k : Input) :
    update_input s k (getInput s k) = s := by
  unfold update_input
  cases h : getInput s k with
  | none => rfl
  | some x => simp [h]

lemma getInput_update_self (s : CalculatorState) (k : Input) (x : InputValue) :
    getInput (update_input s k (some x)) k = some x := by
  unfold update_input
  by_cases h : getInput s k = some x
  · simp [h]
  · simp [h, getInput_set_self]

lemma update_input_flag (s : CalculatorState) (k : Input) (x : InputValue) :
    (update_input s k (some x)).have_changes =
      (if getInput s k = some x then s.have_changes else true) := by
  unfold update_input
  by_cases h : getInput s k = some x
  · simp [h]
  · simp [h]

lemma refresh_state_flag (F : Formulas) (cfg : Config) (now : ℚ)
    (s : CalculatorState) : (refresh_state F cfg now s).2.have_changes = false := by
  unfold refresh_state
  split_ifs with h1 h2 h3
  · rfl
  · rfl
  · rfl
  · simpa using h1

lemma refresh_state_of_flag_false (F : Formulas) (cfg : Config) (now : ℚ)
    (s : CalculatorState) (h : s.have_changes = false) :
    refresh_state F cfg now s = (false, s) := by
  unfold refresh_state
  simp [h]

lemma anyInputNone_clearFlag (s : CalculatorState) :
    anyInputNone (clearFlag s) = anyInputNone s := rfl

lemma make_comfort_forecast_all_past (F : Formulas) (cfg : Config) (now : ℚ) :
    ∀ l : List Forecast, (∀ e ∈ l, e.datetime < now) →
      make_comfort_forecast F cfg now l = []
  | [], _ => rfl
  | e :: rest, h => by
    rw [make_comfort_forecast, if_pos (h e (by simp))]
    exact make_comfort_forecast_all_past F cfg now rest
      (fun x hx => h x (by simp [hx]))

/-! ### Claim C4 -/

/-- Claim C4: whenever at least one of the four indoor/outdoor scalar inputs
is `None` — in particular when only `indoor_humidity` is missing — a
`refresh_state` call returns `False` (the no-op signal, so nothing is
published to subscribers) and leaves every calculated output unchanged. -/
theorem refresh_state_missing_input (F : Formulas) (cfg : Config) (now : ℚ)
    (s : CalculatorState)
    (h : s.indoor_temperature = none ∨ s.indoor_humidity = none
      ∨ s.outdoor_temperature = none ∨ s.outdoor_humidity = none) :
    (refresh_state F cfg now s).1 = false
      ∧ (refresh_state F cfg now s).2.calculated = s.calculated := by
  have hnone : anyInputNone s = true := by
    rcases h with h | h | h | h <;> simp [anyInputNone, h]
  unfold refresh_state
  split_ifs with h1 h2 h3
  · exact ⟨rfl, rfl⟩
  · rw [anyInputNone_clearFlag] at h2
    exact absurd hnone (by simpa using h2)
  · rw [anyInputNone_clearFlag] at h2
    exact absurd hnone (by simpa using h2)
  · exact ⟨rfl, rfl⟩

/-- Witness for C4: the sample state with `indoor_humidity` removed (all other
inputs present, dirty flag set) makes `refresh_state` a published-nothing
no-op. -/
theorem refresh_state_missing_input_witness :
    (refresh_state sampleFormulas sampleConfig 0
        { sampleState with indoor_humidity := none }).1 = false
      ∧ (refresh_state sampleFormulas sampleConfig 0
          { sampleState with indoor_humidity := none }).2.calculated
        = ({ sampleState with indoor_humidity := none } : CalculatorState).calculated :=
  refresh_state_missing_input sampleFormulas sampleConfig 0
    { sampleState with indoor_humidity := none } (Or.inr (Or.inl (by decide)))

/-! ### Claim C5 -/

/-- Counterexample to claim C5 as stated: `update_input` never returns a
boolean.  The Python method is annotated `-> None` and its body has no
`return` statement, so the call's value is `None` even when a fresh value is
stored (where the claim asserts it returns `true`), and also when the call is
a no-op (where the claim asserts it returns `false`). -/
theorem update_input_ret_counterexample :
    update_input_ret {} .indoor_humidity (some (.scalar 50)) ≠ some true
      ∧ update_input_ret sampleState .indoor_humidity (some (.scalar 50)) ≠ some false
      ∧ (update_input {} .indoor_humidity (some (.scalar 50))).have_changes = true := by
  refine ⟨?_, ?_, ?_⟩ <;> decide

/-- Claim C5 as amended: `update_input(key, value)` with `value = None`, or
with `value` equal to the stored value, is a complete no-op (stored value and
dirty flag unchanged); otherwise it stores the value and sets the dirty flag.
It returns nothing (Python `None`), not a boolean.  Calling it twice with the
same value is a no-op the second time, so the dirty flag is never set twice
in a row without an intervening change. -/
theorem update_input_spec (s : CalculatorState) (k : Input) (x : InputValue) :
    update_input s k none = s
      ∧ update_input s k (getInput s k) = s
      ∧ update_input_ret s k (some x) = none
      ∧ getInput (update_input s k (some x)) k = some x
      ∧ (update_input s k (some x)).have_changes
        = (if getInput s k = some x then s.have_changes else true)
      ∧ update_input (update_input s k (some x)) k (some x)
        = update_input s k (some x) := by
  refine ⟨update_input_none s k, update_input_stored s k, rfl,
    getInput_update_self s k x, update_input_flag s k x, ?_⟩
  have hget := getInput_update_self s k x
  have hsome : ∀ (s' : CalculatorState), update_input s' k (some x)
      = if getInput s' k ≠ some x then { setInput s' k x with have_changes := true }
        else s' := fun _ => rfl
  rw [hsome (update_input s k (some x)), if_neg (not_not_intro hget)]

/-! ### Claim C6 -/

/-- Claim C6: `refresh_state` called twice in succession with no
`update_input` in between returns `False` (the no-op signal) the second time:
the first call always leaves the dirty flag cleared, so at most one state is
produced per dirty-flag cycle. -/
theorem refresh_state_twice_noop (F : Formulas) (cfg : Config) (now now2 : ℚ)
    (s : CalculatorState) :
    (refresh_state F cfg now2 (refresh_state F cfg now s).2).1 = false := by
  rw [refresh_state_of_flag_false F cfg now2 _ (refresh_state_flag F cfg now s)]

/-! ### Claim C10 -/

/-- Claim C10: a `refresh_state` call on a dirty state consumes the dirty bit
unconditionally (it is cleared before the input-completeness and forecast
checks), so every later `refresh_state` returns `False`, including after an
`update_input` call that does not change the stored value. -/
theorem refresh_state_consumes_dirty (F : Formulas) (cfg : Config)
    (now now2 now3 : ℚ) (s : CalculatorState) (k : Input)
    (_hd : s.have_changes = true) :
    (refresh_state F cfg now s).2.have_changes = false
      ∧ (refresh_state F cfg now2 (refresh_state F cfg now s).2).1 = false
      ∧ (refresh_state F cfg now3
          (update_input (refresh_state F cfg now s).2 k
            (getInput (refresh_state F cfg now s).2 k))).1 = false := by
  refine ⟨refresh_state_flag F cfg now s, ?_, ?_⟩
  · rw [refresh_state_of_flag_false F cfg now2 _ (refresh_state_flag F cfg now s)]
  · rw [update_input_stored,
      refresh_state_of_flag_false F cfg now3 _ (refresh_state_flag F cfg now s)]

/-- Witness for C10: a dirty state whose `indoor_humidity` is missing (the
call returns `False` without computing anything) still has its dirty bit
consumed. -/
theorem refresh_state_consumes_dirty_witness :
    (refresh_state sampleFormulas sampleConfig 0
        { sampleState with indoor_humidity := none }).2.have_changes = false
      ∧ (refresh_state sampleFormulas sampleConfig 1
          (refresh_state sampleFormulas sampleConfig 0
            { sampleState with indoor_humidity := none }).2).1 = false
      ∧ (refresh_state sampleFormulas sampleConfig 2
          (update_input (refresh_state sampleFormulas sampleConfig 0
              { sampleState with indoor_humidity := none }).2 .outdoor_humidity
            (getInput (refresh_state sampleFormulas sampleConfig 0
                { sampleState with indoor_humidity := none }).2 .outdoor_humidity))).1
        = false :=
  refresh_state_consumes_dirty sampleFormulas sampleConfig 0 1 2
    { sampleState with indoor_humidity := none } .outdoor_humidity (by decide)

/-! ### List-scan helper lemmas -/

lemma head?_dropWhile_eq_find? {α : Type} (p : α → Bool) :
    ∀ l : List α, (l.dropWhile p).head? = l.find? (fun x => !(p x))
  | [] => rfl
  | x :: xs => by
    by_cases h : p x
    · simp [List.dropWhile_cons, List.find?_cons, h, head?_dropWhile_eq_find? p xs]
    · simp [List.dropWhile_cons, List.find?_cons, h]

lemma dropWhile_append_all {α : Type} (p : α → Bool) :
    ∀ l₁ l₂ : List α, (∀ x ∈ l₁, p x = true) →
      (l₁ ++ l₂).dropWhile p = l₂.dropWhile p
  | [], _, _ => rfl
  | x :: xs, l₂, h => by
    simp only [List.cons_append, List.dropWhile_cons, h x (by simp), if_true]
    exact dropWhile_append_all p xs l₂ (fun y hy => h y (by simp [hy]))

lemma dropWhile_all {α : Type} (p : α → Bool) (l : List α)
    (h : ∀ x ∈ l, p x = true) : l.dropWhile p = [] := by
  have := dropWhile_append_all p l [] h
  simpa using this

/-! ### Claim C2 -/

/-- Claim C2: splitting a flagged forecast as `l₁ ++ b :: l₂` where every
entry of `l₁` agrees with `comfortable_now = c` and `b` is the first entry
that differs: the scan's first transition is `b`'s timestamp, its second
transition is the timestamp of the first entry of `l₂` whose flag differs
from `b`'s flag (or `None`), a scan of an all-agreeing forecast yields
`(None, None)`, and the two slots map onto the open/close-windows times
(next transition to comfortable / to uncomfortable) according to the current
state: the first transition is "to uncomfortable" when currently comfortable
and "to comfortable" otherwise, and vice versa for the second. -/
theorem transition_scan_spec (c : Bool) (l₁ l₂ : List ComfortForecast)
    (b : ComfortForecast)
    (h1 : ∀ x ∈ l₁, x.comfortable = c) (h2 : b.comfortable ≠ c) :
    (∀ l : List ComfortForecast, (∀ x ∈ l, x.comfortable = c) →
        transitionScan l c = (none, none))
      ∧ (transitionScan (l₁ ++ b :: l₂) c).1 = some b.datetime
      ∧ (transitionScan (l₁ ++ b :: l₂) c).2
        = (l₂.find? (fun x => x.comfortable != b.comfortable)).map
            (fun x => x.datetime)
      ∧ windowTimes c (transitionScan (l₁ ++ b :: l₂) c)
        = (if c then (l₂.find? (fun x => x.comfortable != b.comfortable)).map
              (fun x => x.datetime)
            else some b.datetime,
           if c then some b.datetime
            else (l₂.find? (fun x => x.comfortable != b.comfortable)).map
              (fun x => x.datetime)) := by
  have hbc : b.comfortable = !c := by
    cases hb : b.comfortable <;> cases hc : c <;> simp_all
  have hpb : (b.comfortable == c) = false := by rw [hbc]; cases c <;> rfl
  have hdrop : (l₁ ++ b :: l₂).dropWhile (fun x => x.comfortable == c) = b :: l₂ := by
    rw [dropWhile_append_all (fun x => x.comfortable == c) l₁ (b :: l₂)
        (fun x hx => by simp [h1 x hx]),
      List.dropWhile_cons, hpb]
    simp
  have hfun : (fun x : ComfortForecast => !(x.comfortable != c))
      = (fun x : ComfortForecast => x.comfortable != b.comfortable) := by
    funext x
    rw [hbc]
    cases x.comfortable <;> cases c <;> rfl
  have hscan : transitionScan (l₁ ++ b :: l₂) c
      = (some b.datetime,
         (l₂.find? (fun x => x.comfortable != b.comfortable)).map
           (fun x => x.datetime)) := by
    rw [transitionScan, hdrop]
    have hpb' : (b.comfortable != c) = true := by rw [hbc]; cases c <;> rfl
    dsimp only
    rw [List.dropWhile_cons]
    simp only [hpb', if_true]
    rw [head?_dropWhile_eq_find?, hfun]
  have hall : ∀ l : List ComfortForecast, (∀ x ∈ l, x.comfortable = c) →
      transitionScan l c = (none, none) := by
    intro l hl
    rw [transitionScan, dropWhile_all _ l (fun x hx => by simp [hl x hx])]
  refine ⟨hall, by rw [hscan], by rw [hscan], ?_⟩
  rw [hscan]
  cases c <;> rfl

/-- Witness for C2: a three-entry forecast, currently comfortable; the first
differing entry is at time 1, the entry after it that differs from it is at
time 2, and they map to close/open windows times respectively. -/
theorem transition_scan_spec_witness :
    (transitionScan
        [{ datetime := 0, temperature := 20, dew_point := 10, ssi := 20
           enthalpy := 30, comfortable := true },
         { datetime := 1, temperature := 21, dew_point := 11, ssi := 21
           enthalpy := 31, comfortable := false },
         { datetime := 2, temperature := 22, dew_point := 12, ssi := 22
           enthalpy := 32, comfortable := true }] true).1 = some 1 :=
  (transition_scan_spec true
    [{ datetime := 0, temperature := 20, dew_point := 10, ssi := 20
       enthalpy := 30, comfortable := true }]
    [{ datetime := 2, temperature := 22, dew_point := 12, ssi := 22
       enthalpy := 32, comfortable := true }]
    { datetime := 1, temperature := 21, dew_point := 11, ssi := 21
      enthalpy := 31, comfortable := false }
    (by decide) (by decide)).2.1

lemma refresh_state_true_elim (F : Formulas) (cfg : Config) (now : ℚ)
    (s : CalculatorState) (hret : (refresh_state F cfg now s).1 = true) :
    refresh_state F cfg now s = (true, calculateOutputs F cfg now (clearFlag s)) := by
  unfold refresh_state at hret ⊢
  split_ifs at hret ⊢
  rfl

/-! ### Claim C1 -/

/-- Claim C1: `is_comfortable(humidity, dew_point, simmer_index, pollen)`
holds iff `humidity <= humidity_max` and
`simmer_index_min <= simmer_index <= simmer_index_max` and
`dew_point <= dew_point_max` and `pollen <= pollen_max`; the very same
predicate determines the present moment (a successful `refresh_state` stores
`["off","on"][comfortable_now]` with `comfortable_now` the predicate applied
to the outdoor sensors, pollen `0`) and the comfort flag of every derived
forecast entry. -/
theorem comfort_predicate_spec (F : Formulas) (cfg : Config) (now : ℚ)
    (s : CalculatorState) (ot oh : ℚ)
    (hot : s.outdoor_temperature = some (InputValue.scalar ot))
    (hoh : s.outdoor_humidity = some (InputValue.scalar oh))
    (hret : (refresh_state F cfg now s).1 = true) :
    (∀ (c : Config) (hu dp si : ℚ) (p : ℤ),
        is_comfortable c hu dp si p = true ↔
          (hu ≤ c.humidity_max ∧ (c.simmer_index_min ≤ si ∧ si ≤ c.simmer_index_max)
            ∧ dp ≤ c.dew_point_max ∧ p ≤ c.pollen_max))
      ∧ (refresh_state F cfg now s).2.calculated.can_open_windows
        = some (if is_comfortable cfg oh (F.dewPoint ot oh) (F.simmerIndex ot oh) 0
            then "on" else "off")
      ∧ ∀ (l : List Forecast) (e : ComfortForecast),
          e ∈ make_comfort_forecast F cfg now l →
            ∃ src ∈ l, ∃ t hum, src.temperature = some t ∧ src.humidity = some hum
              ∧ e.ssi = F.simmerIndex t hum
              ∧ e.comfortable = is_comfortable cfg hum e.dew_point e.ssi 0 := by
  refine ⟨?_, ?_, ?_⟩
  · intro c hu dp si p
    simp only [is_comfortable, Bool.and_eq_true, decide_eq_true_eq]
    tauto
  · rw [refresh_state_true_elim F cfg now s hret]
    have hot' : (clearFlag s).outdoor_temperature = some (InputValue.scalar ot) := hot
    have hoh' : (clearFlag s).outdoor_humidity = some (InputValue.scalar oh) := hoh
    simp only [calculateOutputs, hot', hoh']
    rfl
  · intro l
    induction l with
    | nil => intro e he; simp [make_comfort_forecast] at he
    | cons hd tl ih =>
      intro e he
      rw [make_comfort_forecast] at he
      split_ifs at he with hskip hbreak
      · obtain ⟨src, hsrc, rest⟩ := ih e he
        exact ⟨src, by simp [hsrc], rest⟩
      · simp at he
      · revert he
        cases ht : hd.temperature with
        | none => intro he; simp at he
        | some t =>
          cases hh : hd.humidity with
          | none => intro he; simp at he
          | some hum =>
            intro he
            rcases List.mem_cons.mp he with heq | hmem
            · exact ⟨hd, by simp, t, hum, ht, hh, by rw [heq], by rw [heq]⟩
            · obtain ⟨src, hsrc, rest⟩ := ih e hmem
              exact ⟨src, by simp [hsrc], rest⟩

/-- Witness for C1: a complete dirty state for which `refresh_state` returns
`True`; the stored `can_open_windows` string is determined by the comfort
predicate on the outdoor sensors. -/
theorem comfort_predicate_spec_witness :
    (refresh_state sampleFormulas sampleConfig 0 sampleState).2.calculated.can_open_windows
      = some (if is_comfortable sampleConfig 55
            (sampleFormulas.dewPoint 20 55) (sampleFormulas.simmerIndex 20 55) 0
          then "on" else "off") :=
  (comfort_predicate_spec sampleFormulas sampleConfig 0 sampleState 20 55
    (by rfl) (by rfl)
    (by norm_num [refresh_state, clearFlag, anyInputNone, sampleState, getForecastList,
      make_comfort_forecast, dewPointOrCalc, is_comfortable, sampleFormulas,
      sampleConfig])).2.1

/-! ### Claim C3 -/

/-- Counterexample to claim C3 as stated: with every input present, the dirty
flag set, and an empty forecast list, `refresh_state` returns `False` (line
146 of `comfort.py`: `if not forecast: return False`) and no comfort state is
computed — `can_open_windows` stays `None` — where the claim requires
`comfortable_now` to still be computed and published. -/
theorem empty_forecast_counterexample :
    (refresh_state sampleFormulas sampleConfig 0
        { sampleState with forecast := some (.flist []) }).1 = false
      ∧ (refresh_state sampleFormulas sampleConfig 0
          { sampleState with forecast := some (.flist []) }).2.calculated.can_open_windows
        = none := by
  refine ⟨?_, ?_⟩ <;> decide

/-- Claim C3 as amended: with all inputs present and the dirty flag set, if
the stored forecast list is empty or contains only entries before `now`,
`refresh_state` returns `False` and leaves every calculated field (including
`can_open_windows`, i.e. `comfortable_now`) unchanged: an empty usable
forecast window suppresses the whole computation, it does not merely disable
the trend fields. -/
theorem refresh_state_empty_forecast (F : Formulas) (cfg : Config) (now : ℚ)
    (s : CalculatorState) (l : List Forecast)
    (hd : s.have_changes = true)
    (hcomplete : anyInputNone s = false)
    (hf : s.forecast = some (InputValue.flist l))
    (hl : l = [] ∨ ∀ e ∈ l, e.datetime < now) :
    (refresh_state F cfg now s).1 = false
      ∧ (refresh_state F cfg now s).2.calculated = s.calculated
      ∧ (refresh_state F cfg now s).2.have_changes = false := by
  have hempty : make_comfort_forecast F cfg now (getForecastList (clearFlag s).forecast) = [] := by
    have : getForecastList (clearFlag s).forecast = l := by
      show getForecastList s.forecast = l
      rw [hf]; rfl
    rw [this]
    rcases hl with rfl | hpast
    · rfl
    · exact make_comfort_forecast_all_past F cfg now l hpast
  unfold refresh_state
  rw [if_neg (not_not_intro hd),
    if_neg (show ¬ anyInputNone (clearFlag s) = true by
      rw [anyInputNone_clearFlag, hcomplete]; simp),
    if_pos (show (make_comfort_forecast F cfg now
        (getForecastList (clearFlag s).forecast)).isEmpty = true by
      rw [hempty]; rfl)]
  exact ⟨rfl, rfl, rfl⟩

/-- Witness for C3 (amended): the sample state with an all-past forecast. -/
theorem refresh_state_empty_forecast_witness :
    (refresh_state sampleFormulas sampleConfig 10
        { sampleState with forecast := some (.flist
            [{ datetime := 1, temperature := some 20
               humidity := some 50, dew_point := none }]) }).1 = false
      ∧ (refresh_state sampleFormulas sampleConfig 10
          { sampleState with forecast := some (.flist
              [{ datetime := 1, temperature := some 20
                 humidity := some 50, dew_point := none }]) }).2.calculated
        = ({ sampleState with forecast := some (.flist
              [{ datetime := 1, temperature := some 20
                 humidity := some 50, dew_point := none }]) } : CalculatorState).calculated
      ∧ (refresh_state sampleFormulas sampleConfig 10
          { sampleState with forecast := some (.flist
              [{ datetime := 1, temperature := some 20
                 humidity := some 50, dew_point := none }]) }).2.have_changes = false :=
  refresh_state_empty_forecast sampleFormulas sampleConfig 10 _
    [{ datetime := 1, temperature := some 20, humidity := some 50, dew_point := none }]
    (by decide) (by decide) (by decide) (Or.inr (by decide))

/-! ### Claim C7 -/

/-- Counterexample to claim C7 as stated: a forecast whose first entry (inside
the 24-hour window) is missing its humidity, followed by a well-formed entry.
The scan returns the empty list — the well-formed entry is never processed —
whereas the claim requires only the malformed entry to be skipped.  (Processing
the well-formed entry alone yields one derived entry.) -/
theorem malformed_forecast_counterexample :
    make_comfort_forecast sampleFormulas sampleConfig 0
        [{ datetime := 1, temperature := some 20, humidity := none, dew_point := none },
         { datetime := 2, temperature := some 20, humidity := some 50, dew_point := none }]
      = []
      ∧ (make_comfort_forecast sampleFormulas sampleConfig 0
          [{ datetime := 2, temperature := some 20, humidity := some 50
             dew_point := none }]).length = 1 := by
  constructor
  · norm_num [make_comfort_forecast]
  · norm_num [make_comfort_forecast, dewPointOrCalc, is_comfortable,
      sampleFormulas, sampleConfig]

/-- Claim C7 as amended: when the scan reaches an entry inside the window that
is missing its temperature or humidity, it stops and returns the entries
accumulated so far (`return new_forecast`): everything after the malformed
entry is ignored, so the result is the same as if the list ended at the
malformed entry.  No exception escapes (the scan is a total function). -/
theorem make_comfort_forecast_stops_at_malformed (F : Formulas) (cfg : Config)
    (now : ℚ) (l₁ l₂ : List Forecast) (bad : Forecast)
    (ht1 : ¬ bad.datetime < now) (ht2 : ¬ now + 24 < bad.datetime)
    (hm : bad.temperature = none ∨ bad.humidity = none) :
    make_comfort_forecast F cfg now (l₁ ++ bad :: l₂)
        = make_comfort_forecast F cfg now (l₁ ++ [bad])
      ∧ make_comfort_forecast F cfg now (bad :: l₂) = [] := by
  have hbad : ∀ l : List Forecast, make_comfort_forecast F cfg now (bad :: l) = [] := by
    intro l
    rw [make_comfort_forecast, if_neg ht1, if_neg ht2]
    rcases hm with hm | hm
    · rw [hm]
    · rw [hm]
      cases bad.temperature <;> rfl
  refine ⟨?_, hbad l₂⟩
  induction l₁ with
  | nil =>
    simp only [List.nil_append]
    rw [hbad l₂, hbad []]
  | cons e tl ih =>
    simp only [List.cons_append]
    rw [make_comfort_forecast, make_comfort_forecast]
    by_cases h1 : e.datetime < now
    · rw [if_pos h1, if_pos h1]
      exact ih
    · rw [if_neg h1, if_neg h1]
      by_cases h2 : now + 24 < e.datetime
      · rw [if_pos h2, if_pos h2]
      · rw [if_neg h2, if_neg h2]
        cases ht : e.temperature with
        | none => rfl
        | some t =>
          cases hh : e.humidity with
          | none => rfl
          | some hum => simpa using ih

/-- Witness for C7 (amended): with a malformed entry at time 1 inside the
window, the entries after it (here one well-formed entry at time 2) do not
change the scan's result, and a scan starting at the malformed entry yields
nothing. -/
theorem make_comfort_forecast_stops_at_malformed_witness :
    make_comfort_forecast sampleFormulas sampleConfig 0
        ([{ datetime := 0, temperature := some 19, humidity := some 40
            dew_point := none }]
          ++ { datetime := 1, temperature := some 20, humidity := none
               dew_point := none } ::
            [{ datetime := 2, temperature := some 20, humidity := some 50
               dew_point := none }])
      = make_comfort_forecast sampleFormulas sampleConfig 0
          ([{ datetime := 0, temperature := some 19, humidity := some 40
              dew_point := none }]
            ++ [{ datetime := 1, temperature := some 20, humidity := none
                  dew_point := none }]) :=
  (make_comfort_forecast_stops_at_malformed sampleFormulas sampleConfig 0
    [{ datetime := 0, temperature := some 19, humidity := some 40, dew_point := none }]
    [{ datetime := 2, temperature := some 20, humidity := some 50, dew_point := none }]
    { datetime := 1, temperature := some 20, humidity := none, dew_point := none }
    (by norm_num) (by norm_num) (Or.inr rfl)).1

/-! ### Claim C8 -/

/-- Counterexample to claim C8 as stated: at 100 °F and 50 % relative
humidity the source `calc_simmer_index` returns `118.301`, a value with three
decimal places, while the claimed computation (with the final rounding to two
decimals) yields `118.30`; the function does not round its result. -/
theorem calc_simmer_index_rounding_counterexample :
    calc_simmer_index 100 50 .fahrenheit = 118.301
      ∧ simmer_index_specC8 100 50 .fahrenheit = 118.30
      ∧ calc_simmer_index 100 50 .fahrenheit ≠ simmer_index_specC8 100 50 .fahrenheit := by
  have h1 : calc_simmer_index 100 50 .fahrenheit = 118.301 := by
    norm_num [calc_simmer_index, summer_simmer_index, convertTemp, toCelsius, fromCelsius]
  have hfloor : ⌊(11830.1 : ℚ)⌋ = 11830 := by
    rw [Int.floor_eq_iff]
    norm_num
  have h2 : simmer_index_specC8 100 50 .fahrenheit = 118.30 := by
    have : simmer_index_specC8 100 50 .fahrenheit = round2 118.301 := by
      norm_num [simmer_index_specC8, convertTemp, toCelsius, fromCelsius]
    rw [this, round2, show (100 : ℚ) * 118.301 = 11830.1 by norm_num, roundHalfEven]
    rw [if_pos (by rw [hfloor]; norm_num), hfloor]
    norm_num
  exact ⟨h1, h2, by rw [h1, h2]; norm_num⟩

/-- Claim C8 as amended: `calc_simmer_index` converts to Fahrenheit, applies
`ssi = 1.98·(Tf − (0.55 − 0.0055·rh)·(Tf − 58)) − 56.83` and converts the
result back to the source unit, but returns it unrounded.  Closed forms per
unit (the Fahrenheit/Celsius conversions written out explicitly). -/
theorem calc_simmer_index_closed_form (t rh : ℚ) :
    calc_simmer_index t rh .fahrenheit
        = 1.98 * (t - (0.55 - 0.0055 * rh) * (t - 58)) - 56.83
      ∧ calc_simmer_index t rh .celsius
        = (1.98 * ((t * 9/5 + 32) - (0.55 - 0.0055 * rh) * ((t * 9/5 + 32) - 58))
            - 56.83 - 32) * 5/9
      ∧ calc_simmer_index t rh .kelvin
        = (1.98 * (((t - 273.15) * 9/5 + 32)
              - (0.55 - 0.0055 * rh) * (((t - 273.15) * 9/5 + 32) - 58))
            - 56.83 - 32) * 5/9 + 273.15 := by
  refine ⟨?_, ?_, ?_⟩ <;>
    · simp only [calc_simmer_index, summer_simmer_index, convertTemp, toCelsius,
        fromCelsius]
      ring

/-! ### Rounding error bound on the reals -/

lemma roundHalfEvenR_close (x : ℝ) : |(roundHalfEvenR x : ℝ) - x| ≤ 1/2 := by
  have h0 : (⌊x⌋ : ℝ) ≤ x := Int.floor_le x
  have h1 : x < ⌊x⌋ + 1 := Int.lt_floor_add_one x
  unfold roundHalfEvenR
  split_ifs with hlt hgt hev
  · rw [abs_le]; constructor <;> linarith
  · rw [abs_le]; push_cast; constructor <;> linarith
  · rw [abs_le]
    have := not_lt.mp hlt
    constructor <;> linarith
  · rw [abs_le]; push_cast
    have := not_lt.mp hgt
    constructor <;> linarith

lemma round2R_close (x : ℝ) : |round2R x - x| ≤ 1/200 := by
  have h := roundHalfEvenR_close (100 * x)
  have heq : round2R x - x = ((roundHalfEvenR (100 * x) : ℝ) - 100 * x) / 100 := by
    rw [round2R]; ring
  rw [heq, abs_div, abs_of_pos (show (0:ℝ) < 100 by norm_num)]
  linarith

/-! ### Taylor bounds for the real exponential -/

lemma exp_lt_of_taylor8 {x q : ℝ} (h0 : 0 ≤ x) (h1 : x ≤ 1)
    (h : (∑ i ∈ Finset.range 8, x ^ i / (Nat.factorial i : ℝ)) + x ^ 8 * 9 / 322560 < q) :
    Real.exp x < q := by
  have hb := @Real.exp_bound' x h0 h1 8 (by norm_num)
  refine lt_of_le_of_lt (hb.trans (le_of_eq ?_)) h
  norm_num [Nat.factorial]

lemma lt_exp_of_taylor8 {x q : ℝ} (h0 : 0 ≤ x) (h1 : x ≤ 1)
    (h : q < (∑ i ∈ Finset.range 8, x ^ i / (Nat.factorial i : ℝ)) - x ^ 8 * 9 / 322560) :
    q < Real.exp x := by
  have hb := @Real.exp_bound x (by rwa [abs_of_nonneg h0]) 8 (by norm_num)
  rw [abs_of_nonneg h0] at hb
  have hb2 := (abs_sub_le_iff.mp hb).2
  have heq : x ^ 8 * ((Nat.succ 8 : ℝ) / ((Nat.factorial 8 : ℝ) * 8)) = x ^ 8 * 9 / 322560 := by
    have h2 : ((Nat.factorial 8 : ℕ) : ℝ) = 40320 := by norm_num [Nat.factorial]
    rw [h2]
    push_cast
    ring
  refine h.trans_le ?_
  rw [← heq] at *
  linarith

lemma exp_3024_lt : Real.exp 0.3024 < 1.3531026 := by
  apply exp_lt_of_taylor8 (by norm_num) (by norm_num)
  norm_num [Finset.sum_range_succ, Finset.sum_range_zero, Nat.factorial]

lemma exp_3028_gt : (1.3536430 : ℝ) < Real.exp 0.3028 := by
  apply lt_exp_of_taylor8 (by norm_num) (by norm_num)
  norm_num [Finset.sum_range_succ, Finset.sum_range_zero, Nat.factorial]

lemma exp_31_lt : Real.exp 0.31 < 1.36343 := by
  apply exp_lt_of_taylor8 (by norm_num) (by norm_num)
  norm_num [Finset.sum_range_succ, Finset.sum_range_zero, Nat.factorial]

lemma exp_91_lt : Real.exp 0.91 < 2.48433 := by
  apply exp_lt_of_taylor8 (by norm_num) (by norm_num)
  norm_num [Finset.sum_range_succ, Finset.sum_range_zero, Nat.factorial]

lemma exp_492_lt : Real.exp 0.492 < 1.6356 := by
  apply exp_lt_of_taylor8 (by norm_num) (by norm_num)
  norm_num [Finset.sum_range_succ, Finset.sum_range_zero, Nat.factorial]

/-! ### Logarithm bounds used by the dew-point comparison -/

lemma log_ten_gt : (2.3024 : ℝ) < Real.log 10 := by
  rw [Real.lt_log_iff_exp_lt (by norm_num)]
  have h1 : Real.exp 2.3024 = Real.exp 1 * Real.exp 1 * Real.exp 0.3024 := by
    rw [← Real.exp_add, ← Real.exp_add]; norm_num
  rw [h1]
  have he := Real.exp_one_lt_d9
  have hb := exp_3024_lt
  have hp1 := (Real.exp_pos 1).le
  have h2 : Real.exp 1 * Real.exp 1 ≤ 2.7182818286 * 2.7182818286 :=
    mul_le_mul he.le he.le hp1 (by norm_num)
  have h3 : Real.exp 1 * Real.exp 1 * Real.exp 0.3024
      ≤ 2.7182818286 * 2.7182818286 * 1.3531026 :=
    mul_le_mul h2 hb.le (Real.exp_pos _).le (by norm_num)
  calc Real.exp 1 * Real.exp 1 * Real.exp 0.3024
      ≤ 2.7182818286 * 2.7182818286 * 1.3531026 := h3
    _ < 10 := by norm_num

lemma log_ten_lt : Real.log 10 < 2.3028 := by
  rw [Real.log_lt_iff_lt_exp (by norm_num)]
  have h1 : Real.exp 2.3028 = Real.exp 1 * Real.exp 1 * Real.exp 0.3028 := by
    rw [← Real.exp_add, ← Real.exp_add]; norm_num
  rw [h1]
  have he := Real.exp_one_gt_d9
  have hb := exp_3028_gt
  have h2 : (2.7182818283 : ℝ) * 2.7182818283 ≤ Real.exp 1 * Real.exp 1 :=
    mul_le_mul he.le he.le (by norm_num) (Real.exp_pos 1).le
  have h3 : (2.7182818283 : ℝ) * 2.7182818283 * 1.3536430
      ≤ Real.exp 1 * Real.exp 1 * Real.exp 0.3028 :=
    mul_le_mul h2 hb.le (by norm_num) (by positivity)
  calc (10 : ℝ) < 2.7182818283 * 2.7182818283 * 1.3536430 := by norm_num
    _ ≤ Real.exp 1 * Real.exp 1 * Real.exp 0.3028 := h3

lemma log_A0_gt : (0.31 : ℝ) < Real.log (373.15 / 273.15) := by
  rw [Real.lt_log_iff_exp_lt (by norm_num)]
  calc Real.exp 0.31 < 1.36343 := exp_31_lt
    _ < 373.15 / 273.15 := by norm_num

lemma log_A0_lt : Real.log (373.15 / 273.15) < 0.6931471808 :=
  (Real.log_lt_log (by norm_num) (by norm_num : (373.15:ℝ)/273.15 < 2)).trans
    Real.log_two_lt_d9

lemma log_1013_gt : (6.91 : ℝ) < Real.log 1013.246 := by
  rw [Real.lt_log_iff_exp_lt (by norm_num)]
  have h1 : Real.exp 6.91 = Real.exp 1 ^ (6:ℕ) * Real.exp 0.91 := by
    rw [← Real.exp_nat_mul, ← Real.exp_add]; norm_num
  rw [h1]
  have he := Real.exp_one_lt_d9
  have h2 : Real.exp 1 ^ (6:ℕ) ≤ 2.7182818286 ^ (6:ℕ) :=
    pow_le_pow_left₀ (Real.exp_pos 1).le he.le 6
  have h3 : Real.exp 1 ^ (6:ℕ) * Real.exp 0.91 ≤ 2.7182818286 ^ (6:ℕ) * 2.48433 :=
    mul_le_mul h2 exp_91_lt.le (Real.exp_pos _).le (by positivity)
  calc Real.exp 1 ^ (6:ℕ) * Real.exp 0.91 ≤ 2.7182818286 ^ (6:ℕ) * 2.48433 := h3
    _ < 1013.246 := by norm_num

lemma log_1013_lt : Real.log 1013.246 < 6.931471808 := by
  have h1 : Real.log 1013.246 < Real.log 1024 :=
    Real.log_lt_log (by norm_num) (by norm_num)
  have h2 : Real.log 1024 = 10 * Real.log 2 := by
    rw [show (1024:ℝ) = 2 ^ (10:ℕ) by norm_num, Real.log_pow]
    norm_num
  have h3 := Real.log_two_lt_d9
  rw [h2] at h1
  linarith

lemma log_061_lt : Real.log 0.61078 < -0.492 := by
  rw [Real.log_lt_iff_lt_exp (by norm_num)]
  have h1 : Real.exp (-0.492) = (Real.exp 0.492)⁻¹ := Real.exp_neg 0.492
  rw [h1, inv_eq_one_div, lt_div_iff₀ (Real.exp_pos _)]
  nlinarith [exp_492_lt, Real.exp_pos 0.492]

lemma log_061_gt : (-0.6931471808 : ℝ) < Real.log 0.61078 := by
  have h1 : Real.log (1/2) < Real.log 0.61078 :=
    Real.log_lt_log (by norm_num) (by norm_num)
  have h2 : Real.log (1/2 : ℝ) = -Real.log 2 := by
    rw [one_div, Real.log_inv]
  have h3 := Real.log_two_lt_d9
  rw [h2] at h1
  linarith

/-! ### Power bounds and the vapor-pressure sum at 0 degrees Celsius -/

lemma rpow_13_4_lt : (10:ℝ) ^ ((13:ℝ)/4) < 2000 := by
  have h4 : ((10:ℝ) ^ ((13:ℝ)/4)) ^ (4:ℕ) = (10:ℝ) ^ ((13:ℝ)) := by
    rw [← Real.rpow_natCast ((10:ℝ) ^ ((13:ℝ)/4)) 4,
      ← Real.rpow_mul (by norm_num : (0:ℝ) ≤ 10)]
    norm_num
  have h13 : ((10:ℝ) ^ ((13:ℝ))) = (10:ℝ) ^ ((13:ℕ)) := by
    rw [← Real.rpow_natCast]
    norm_num
  refine lt_of_pow_lt_pow_left₀ 4 (by norm_num : (0:ℝ) ≤ 2000) ?_
  rw [h4, h13]
  norm_num

lemma dp_P3_bounds : (1:ℝ) < (10:ℝ) ^ (11.344 * (1 - 1 / (373.15 / 273.15)) : ℝ)
    ∧ (10:ℝ) ^ (11.344 * (1 - 1 / (373.15 / 273.15)) : ℝ) < 2000 := by
  constructor
  · rw [Real.one_lt_rpow_iff_of_pos (by norm_num)]
    exact Or.inl ⟨by norm_num, by norm_num⟩
  · calc (10:ℝ) ^ (11.344 * (1 - 1 / (373.15 / 273.15)) : ℝ)
        ≤ (10:ℝ) ^ ((13:ℝ)/4) := by
          rw [Real.rpow_le_rpow_left_iff (by norm_num : (1:ℝ) < 10)]
          norm_num
      _ < 2000 := rpow_13_4_lt

lemma dp_P4_bounds : (0:ℝ) < (10:ℝ) ^ (-3.49149 * (373.15 / 273.15 - 1) : ℝ)
    ∧ (10:ℝ) ^ (-3.49149 * (373.15 / 273.15 - 1) : ℝ) < 1 :=
  ⟨Real.rpow_pos_of_pos (by norm_num) _,
   Real.rpow_lt_one_of_one_lt_of_neg (by norm_num) (by norm_num)⟩

lemma dp_SUM_zero_bounds : (0.7756 : ℝ) < dp_SUM 0 ∧ dp_SUM 0 < 1.6313 := by
  have hA0 : dp_A0 0 = 373.15 / 273.15 := by
    rw [dp_A0]; norm_num
  have hL10pos : (0:ℝ) < Real.log 10 := by linarith [log_ten_gt]
  have hDAlt : Real.log (373.15 / 273.15) / Real.log 10 < 0.30107 := by
    rw [div_lt_iff₀ hL10pos]
    nlinarith [log_A0_lt, log_ten_gt]
  have hDAgt : (0.1346 : ℝ) < Real.log (373.15 / 273.15) / Real.log 10 := by
    rw [lt_div_iff₀ hL10pos]
    nlinarith [log_A0_gt, log_ten_lt]
  have hD5lt : Real.log 1013.246 / Real.log 10 < 3.0107 := by
    rw [div_lt_iff₀ hL10pos]
    nlinarith [log_1013_lt, log_ten_gt]
  have hD5gt : (3.0006 : ℝ) < Real.log 1013.246 / Real.log 10 := by
    rw [lt_div_iff₀ hL10pos]
    nlinarith [log_1013_gt, log_ten_lt]
  have hP3 := dp_P3_bounds
  have hP4 := dp_P4_bounds
  rw [dp_SUM, hA0]
  constructor
  · nlinarith [hP3.1, hP3.2, hP4.1, hP4.2, hDAlt, hDAgt, hD5lt, hD5gt]
  · nlinarith [hP3.1, hP3.2, hP4.1, hP4.2, hDAlt, hDAgt, hD5lt, hD5gt]

/-! ### The two dew points at 0 degrees Celsius and vanishing humidity -/

lemma dp_log_vp_zero :
    Real.log (dp_vp 0 (1/10^100) / 0.61078)
      = (dp_SUM 0 - 3) * Real.log 10 - 100 * Real.log 10 - Real.log 0.61078 := by
  have hpow : (0:ℝ) < (10:ℝ) ^ (dp_SUM 0 - 3 : ℝ) := Real.rpow_pos_of_pos (by norm_num) _
  have hrh : (0:ℝ) < (1/10^100 : ℝ) := by positivity
  rw [dp_vp, Real.log_div (by positivity) (by norm_num),
    Real.log_mul (ne_of_gt hpow) (ne_of_gt hrh),
    Real.log_rpow (by norm_num)]
  have h100 : Real.log (1/10^100 : ℝ) = -(100 * Real.log 10) := by
    rw [one_div, Real.log_inv, show ((10:ℝ)^100) = (10:ℝ)^(100:ℕ) from rfl, Real.log_pow]
    push_cast
    ring
  rw [h100]
  ring

lemma dp_L_bounds :
    (-234.911 : ℝ) < Real.log (dp_vp 0 (1/10^100) / 0.61078)
      ∧ Real.log (dp_vp 0 (1/10^100) / 0.61078) < -232.69 := by
  rw [dp_log_vp_zero]
  have hS := dp_SUM_zero_bounds
  have h10a := log_ten_gt
  have h10b := log_ten_lt
  have h61a := log_061_gt
  have h61b := log_061_lt
  constructor <;> nlinarith [hS.1, hS.2, h10a, h10b, h61a, h61b]

lemma dp_D_gt : (-225.18 : ℝ) < dew_point_from_relative_humidity 0 (1/10^100) := by
  have hL := dp_L_bounds
  rw [dew_point_from_relative_humidity]
  have hden : (0:ℝ) < 17.558 - Real.log (dp_vp 0 (1/10^100) / 0.61078) := by
    linarith [hL.2]
  rw [lt_div_iff₀ hden]
  linarith [hL.1]

lemma magnus_gamma_zero :
    magnus_gamma 0 (1/10^100) = -(102 * Real.log 10) := by
  rw [magnus_gamma]
  have h1 : (1/10^100 : ℝ) / 100 = ((10:ℝ)^(102:ℕ))⁻¹ := by
    rw [show ((10:ℝ)^(102:ℕ)) = 10^(100:ℕ) * 100 by
      rw [show (102:ℕ) = 100 + 2 from rfl, pow_add]; norm_num]
    rw [mul_inv]
    ring
  rw [h1, Real.log_inv, Real.log_pow]
  push_cast
  ring

lemma magnus_M_lt :
    243.5 * magnus_gamma 0 (1/10^100) / (17.67 - magnus_gamma 0 (1/10^100)) < -226.41 := by
  rw [magnus_gamma_zero]
  have h10a := log_ten_gt
  have hden : (0:ℝ) < 17.67 - -(102 * Real.log 10) := by nlinarith
  rw [div_lt_iff₀ hden]
  nlinarith

/-! ### Claim C9 -/

/-- Counterexample to claim C9 as stated: at 0 °C and relative humidity
`10⁻¹⁰⁰` (which satisfies the claim's precondition `0 < rh ≤ 100`), the
source `calc_dew_point` and the claimed Magnus-form computation differ by
more than one degree (about −225.1 °C against −226.4 °C), so they remain
different after rounding to two decimals: the source does not compute
`γ = ln(rh/100) + 17.67·T/(243.5+T)`, `Td = 243.5·γ/(17.67−γ)`. -/
theorem calc_dew_point_not_magnus :
    ((0:ℝ) < 1/10^100 ∧ (1/10^100 : ℝ) ≤ 100)
      ∧ calc_dew_point 0 (1/10^100) TempUnit.celsius
        ≠ magnus_dew_point 0 (1/10^100) TempUnit.celsius := by
  refine ⟨⟨by positivity, by norm_num⟩, ?_⟩
  have hcd : calc_dew_point 0 (1/10^100) TempUnit.celsius
      = round2R (dew_point_from_relative_humidity 0 (1/10^100)) := rfl
  have hmg : magnus_dew_point 0 (1/10^100) TempUnit.celsius
      = round2R (243.5 * magnus_gamma 0 (1/10^100)
          / (17.67 - magnus_gamma 0 (1/10^100))) := rfl
  rw [hcd, hmg]
  have hD := dp_D_gt
  have hM := magnus_M_lt
  have h1 := round2R_close (dew_point_from_relative_humidity 0 (1/10^100))
  have h2 := round2R_close (243.5 * magnus_gamma 0 (1/10^100)
    / (17.67 - magnus_gamma 0 (1/10^100)))
  rw [abs_le] at h1 h2
  intro heq
  rw [heq] at h1
  linarith [h1.1, h2.2]

/-- Claim C9 as amended: `calc_dew_point` converts the temperature to Celsius
and rounds the converted-back result to 2 decimals as claimed, but the inner
formula is not the Magnus form: it is the Goff-Gratch-style vapor-pressure sum
`dp_SUM` scaled by `rh` (`vp = 10^(SUM−3)·rh`), inverted through
`Td = 241.88·L/(17.558 − L)` with `L = ln(vp/0.61078)`. -/
theorem calc_dew_point_closed_form (t rh : ℝ) (u : TempUnit) :
    calc_dew_point t rh u
        = round2R (fromCelsiusR
            ((241.88 * Real.log ((10:ℝ) ^ (dp_SUM (toCelsiusR t u) - 3) * rh / 0.61078))
              / (17.558 - Real.log ((10:ℝ) ^ (dp_SUM (toCelsiusR t u) - 3) * rh / 0.61078)))
            u)
      ∧ |calc_dew_point t rh u
          - convertTempR (dew_point_from_relative_humidity (convertTempR t u .celsius) rh)
              .celsius u| ≤ 1/200 :=
  ⟨rfl, round2R_close _⟩
